import Mathlib

/-!
Verification of the nepa multi-utility billing contract
(`nepa-dapp/nepa_contract`): a shallow embedding of the billing
pipeline (`pay_multi_utility_bill`), the rate registry
(`register_provider`, `add_utility_config`, `upgrade_utility_config`)
and the price-feed gate, with theorems checking the specification's
claims against it.

Conventions of the embedding:
- Rust `i128` monetary values become `Int` (the source performs no
  overflow guarding; overflow is out of scope here).
- Rust `u64` timestamps and `u8`/`u32` small integers become `Nat`.
- `soroban_sdk::Map` collections become association lists with
  replace-or-append `set` semantics (`aset` below), matching `Map::set`.
- Rust `i128` division truncates toward zero, which is `Int.div`.
- Host-level details (auth, token client, storage TTL) are out of the
  claims' scope: `require_auth` is modelled as always succeeding, and a
  transfer is recorded as a `Transfer` value in the call's result.
-/

namespace Nepa

/-- Truncating division, the semantics of Rust `i128` division. -/
def idiv (a b : Int) : Int := Int.tdiv a b

/-- Lookup in an association list: the value at the first matching key. -/
def alookup {α β : Type} [DecidableEq α] : List (α × β) → α → Option β
  | [], _ => none
  | (k, v) :: rest, k' => if k' = k then some v else alookup rest k'

/-- Semantics of `Map::set`: replace the binding if the key is present,
otherwise append the new binding. -/
def aset {α β : Type} [DecidableEq α] : List (α × β) → α → β → List (α × β)
  | [], k, v => [(k, v)]
  | (k0, v0) :: rest, k, v =>
    if k = k0 then (k, v) :: rest else (k0, v0) :: aset rest k v

/-! ## Data model (from `multi_utility.rs`) -/

/-- Soroban `Address`, modelled as an opaque identifier string. -/
abbrev Address := String

/-- The `UtilityType` enumeration (`multi_utility.rs`). -/
inductive UtilityType where
  | Electricity | Water | Gas | Internet | Waste | PropertyTax | Solar | EVCharging
deriving DecidableEq, Repr

namespace UtilityType

/-- Source `UtilityType::from_u8`: range-checked conversion from the wire integer. -/
def from_u8 (value : Nat) : Except String UtilityType :=
  match value with
  | 1 => .ok .Electricity
  | 2 => .ok .Water
  | 3 => .ok .Gas
  | 4 => .ok .Internet
  | 5 => .ok .Waste
  | 6 => .ok .PropertyTax
  | 7 => .ok .Solar
  | 8 => .ok .EVCharging
  | _ => .error "Invalid utility type"

/-- Source `UtilityType::to_u8`: the wire integer of each variant. -/
def to_u8 : UtilityType → Nat
  | .Electricity => 1
  | .Water => 2
  | .Gas => 3
  | .Internet => 4
  | .Waste => 5
  | .PropertyTax => 6
  | .Solar => 7
  | .EVCharging => 8

end UtilityType

/-- Source `TierRate`: inclusive consumption range with its own unit rate. -/
structure TierRate where
  min_units : Int
  max_units : Int
  rate_per_unit : Int
  tier_name : String
deriving DecidableEq, Repr

/-- Source `TimeOfUseRate`: hour window, weekday set, percentage multiplier. -/
structure TimeOfUseRate where
  start_hour : Nat
  end_hour : Nat
  days_of_week : List Nat
  rate_multiplier : Int
  season : String
deriving DecidableEq, Repr

/-- Source `SeasonalAdjustment` (carried in the config, unused by the pipeline). -/
structure SeasonalAdjustment where
  season : String
  start_month : Nat
  end_month : Nat
  rate_adjustment : Int
deriving DecidableEq, Repr

/-- Source `TaxRate`: percentage, compound flag, optional cap. -/
structure TaxRate where
  tax_name : String
  rate_percentage : Int
  is_compound : Bool
  max_amount : Option Int
deriving DecidableEq, Repr

/-- Source `DiscountRate` (carried in the config, unused by the pipeline). -/
structure DiscountRate where
  discount_name : String
  discount_percentage : Int
  condition : String
  is_active : Bool
  expiry_date : Option Nat
deriving DecidableEq, Repr

/-- Source `LateFeeConfig`. -/
structure LateFeeConfig where
  flat_fee : Int
  percentage_fee : Int
  max_fee : Int
  grace_period_days : Nat
  compound_daily : Bool
deriving DecidableEq, Repr

/-- The `FeeType` enumeration. -/
inductive FeeType where
  | Processing | Service | Maintenance | Connection
  | Disconnection | Reconnection | Inspection | Emergency
deriving DecidableEq, Repr

namespace FeeType

/-- Source `FeeType::from_u8`: range-checked conversion from the wire integer. -/
def from_u8 (value : Nat) : Except String FeeType :=
  match value with
  | 1 => .ok .Processing
  | 2 => .ok .Service
  | 3 => .ok .Maintenance
  | 4 => .ok .Connection
  | 5 => .ok .Disconnection
  | 6 => .ok .Reconnection
  | 7 => .ok .Inspection
  | 8 => .ok .Emergency
  | _ => .error "Invalid fee type"

end FeeType

/-- Source `UtilityFee`. -/
structure UtilityFee where
  fee_id : String
  utility_type : UtilityType
  provider_id : String
  fee_type : FeeType
  fee_amount : Int
  fee_percentage : Option Int
  is_percentage : Bool
  description : String
  is_active : Bool
  created_at : Nat
deriving DecidableEq, Repr

/-- Source `UtilityProvider`. The source comment documents `rating` as a
1-5 rating. -/
structure UtilityProvider where
  provider_id : String
  name : String
  address : Address
  utility_type : UtilityType
  region : String
  is_active : Bool
  registration_date : Nat
  license_number : String
  contact_info : String
  rating : Nat
  total_transactions : Nat
deriving DecidableEq, Repr

/-- Source `UtilityConfig`. -/
structure UtilityConfig where
  utility_type : UtilityType
  provider_id : String
  region : String
  base_rate : Int
  currency : String
  decimals : Nat
  tier_rates : List TierRate
  time_of_use_rates : List TimeOfUseRate
  seasonal_adjustments : List SeasonalAdjustment
  tax_rates : List TaxRate
  discount_rates : List DiscountRate
  late_fee_config : LateFeeConfig
  payment_methods : List String
  billing_cycle_days : Nat
  grace_period_days : Nat
  minimum_payment : Int
  maximum_payment : Int
  is_active : Bool
  version : Nat
  last_updated : Nat
deriving DecidableEq, Repr

/-- Source `UtilityMeter`. The struct in `multi_utility.rs` carries no
`region` field, yet `pay_multi_utility_bill` reads `meter.region` to
build the configuration key; the embedding carries the field the use
site demands. -/
structure UtilityMeter where
  meter_id : String
  utility_type : UtilityType
  provider_id : String
  region : String
  customer_address : Address
  installation_date : Nat
  last_reading : Int
  last_reading_date : Nat
  is_active : Bool
  is_smart_meter : Bool
  location : String
  meter_model : String
  firmware_version : String
deriving DecidableEq, Repr

/-- Source `UtilityVersion`: audit record written by `upgrade_utility_config`. -/
structure UtilityVersion where
  utility_type : UtilityType
  version : Nat
  config_hash : String
  deployment_date : Nat
  is_active : Bool
  migration_required : Bool
  description : String
deriving DecidableEq, Repr

/-- Modelled from the spec: `oracle.rs` is not present in the sources;
the `PriceFeed` structure follows the spec's data model (source
address, base/quote asset codes, decimal precision, last-updated time,
fixed-point integer price, reliability score) and the field list used
by `tests.rs`. -/
structure PriceFeed where
  feed_address : Address
  base_asset : String
  quote_asset : String
  decimals : Nat
  last_updated : Nat
  price : Int
  reliability_score : Nat
deriving DecidableEq, Repr

/-- Modelled from the spec: `OracleConfig` as in the spec's data model
and `tests.rs` (max age in seconds, minimum reliability score,
fallback flag, per-call cost ceiling). -/
structure OracleConfig where
  max_age_seconds : Nat
  min_reliability_score : Nat
  fallback_enabled : Bool
  cost_limit_per_call : Int
deriving DecidableEq, Repr

/-- The tuple persisted by `pay_multi_utility_bill` under the key
`meter_id ++ "_" ++ timestamp`. -/
structure BillingData where
  consumption : Int
  base_amount : Int
  tax_amount : Int
  fee_amount : Int
  final_amount : Int
  utility_type_u8 : Nat
  config_version : Nat
deriving DecidableEq, Repr

/-- A token transfer performed by the contract, as recorded by a call. -/
structure Transfer where
  source : Address
  dest : Address
  amount : Int
deriving DecidableEq, Repr

/-- The contract's persistent storage. Each Soroban `Map` collection
becomes an association list. Billing records are keyed by the pair
`(meter_id, timestamp)` and version records by `(config_id, version)`:
the source keys are the strings `format!("{}_{}", a, b)`, which is
injective on these pairs because the numeric half prints no
underscore. The storage-level distinction between an absent collection
and an empty one only selects between two error strings no claim
depends on; collections here are always present, possibly empty. -/
structure ContractState where
  providers : List (String × UtilityProvider)
  configs : List (String × UtilityConfig)
  meters : List (String × UtilityMeter)
  fees : List (String × UtilityFee)
  versions : List ((String × Nat) × UtilityVersion)
  price_feeds : List (String × PriceFeed)
  billing : List ((String × Nat) × BillingData)
  oracle_config : OracleConfig
deriving DecidableEq, Repr

/-- Outcome of a state-mutating entry point: the returned `Result` and
the storage after the call. -/
structure OpResult where
  outcome : Except String Unit
  state : ContractState
deriving Repr

/-! ## Rate registry operations (from `multi_utility.rs`) -/

/-- Embeds `MultiUtilityManager::register_provider`: validate the utility
type, refuse an already-registered id, then store the new provider
with `rating: 5` (the source's literal) and zero transactions.
Error paths return before any store write. -/
def register_provider (st : ContractState) (provider_id name : String)
    (provider_address : Address) (utility_type : Nat)
    (region license_number contact_info : String) (now : Nat) : OpResult :=
  match UtilityType.from_u8 utility_type with
  | .error e => ⟨.error e, st⟩
  | .ok ut =>
    match alookup st.providers provider_id with
    | some _ => ⟨.error "Provider already registered", st⟩
    | none =>
      let provider : UtilityProvider :=
        { provider_id := provider_id
          name := name
          address := provider_address
          utility_type := ut
          region := region
          is_active := true
          registration_date := now
          license_number := license_number
          contact_info := contact_info
          rating := 5
          total_transactions := 0 }
      ⟨.ok (), { st with providers := aset st.providers provider_id provider }⟩

/-- The configuration built by `add_utility_config`: version 1, the
default late-fee policy, empty rate collections. -/
def freshConfig (ut : UtilityType) (provider_id region : String)
    (base_rate : Int) (currency : String)
    (decimals billing_cycle_days grace_period_days : Nat)
    (minimum_payment maximum_payment : Int) (now : Nat) : UtilityConfig :=
  { utility_type := ut
    provider_id := provider_id
    region := region
    base_rate := base_rate
    currency := currency
    decimals := decimals
    tier_rates := []
    time_of_use_rates := []
    seasonal_adjustments := []
    tax_rates := []
    discount_rates := []
    late_fee_config :=
      { flat_fee := 1000000
        percentage_fee := 500
        max_fee := 10000000
        grace_period_days := grace_period_days
        compound_daily := false }
    payment_methods := []
    billing_cycle_days := billing_cycle_days
    grace_period_days := grace_period_days
    minimum_payment := minimum_payment
    maximum_payment := maximum_payment
    is_active := true
    version := 1
    last_updated := now }

/-- Embeds `MultiUtilityManager::add_utility_config`: validate the utility
type, require the provider to exist, be active and match the type,
then store a fresh configuration at `version := 1` with the default
late-fee policy and empty rate collections. -/
def add_utility_config (st : ContractState) (config_id : String)
    (utility_type : Nat) (provider_id region : String) (base_rate : Int)
    (currency : String) (decimals billing_cycle_days grace_period_days : Nat)
    (minimum_payment maximum_payment : Int) (now : Nat) : OpResult :=
  match UtilityType.from_u8 utility_type with
  | .error e => ⟨.error e, st⟩
  | .ok ut =>
    match alookup st.providers provider_id with
    | none => ⟨.error "Provider not found", st⟩
    | some provider =>
      if !provider.is_active then ⟨.error "Provider is not active", st⟩
      else if provider.utility_type ≠ ut then ⟨.error "Utility type mismatch", st⟩
      else
        let config := freshConfig ut provider_id region base_rate currency
          decimals billing_cycle_days grace_period_days minimum_payment
          maximum_payment now
        ⟨.ok (), { st with configs := aset st.configs config_id config }⟩

/-- Embeds `MultiUtilityManager::upgrade_utility_config`: require the
configuration to exist, append a `UtilityVersion` audit record keyed
by `(config_id, old.version + 1)`, then overwrite the live
configuration with `version := old.version + 1` and a refreshed
timestamp. -/
def upgrade_utility_config (st : ContractState) (config_id : String)
    (new_config : UtilityConfig) (now : Nat) : OpResult :=
  match alookup st.configs config_id with
  | none => ⟨.error "Configuration not found", st⟩
  | some old_config =>
    let version : UtilityVersion :=
      { utility_type := old_config.utility_type
        version := old_config.version + 1
        config_hash := "hash_placeholder"
        deployment_date := now
        is_active := true
        migration_required := true
        description := "Configuration upgrade" }
    let versions := aset st.versions (config_id, old_config.version + 1) version
    let updated_config :=
      { new_config with version := old_config.version + 1, last_updated := now }
    ⟨.ok (), { st with versions := versions,
                       configs := aset st.configs config_id updated_config }⟩

/-- A sequence of `upgrade_utility_config` calls on one configuration
id, stopping at the first failure. -/
def upgradeSeq (st : ContractState) (config_id : String) :
    List (UtilityConfig × Nat) → OpResult
  | [] => ⟨.ok (), st⟩
  | (c, t) :: rest =>
    let r := upgrade_utility_config st config_id c t
    match r.outcome with
    | .error e => ⟨.error e, r.state⟩
    | .ok _ => upgradeSeq r.state config_id rest

/-! ## Price-feed gate -/

/-- Modelled from the spec: `OracleManager::get_price_feed` lives in
the absent `oracle.rs`. Per the spec's Reliability & Staleness Gate, a
feed is usable only if `now - last_updated <= max_age_seconds` and
`reliability_score >= min_reliability_score`; an unusable datum "is
treated as absent" by the consuming operation, so the lookup returns
`none` for it. -/
def get_price_feed (st : ContractState) (now : Nat) (feed_id : String) :
    Option PriceFeed :=
  match alookup st.price_feeds feed_id with
  | none => none
  | some pf =>
    if now - pf.last_updated ≤ st.oracle_config.max_age_seconds ∧
       st.oracle_config.min_reliability_score ≤ pf.reliability_score
    then some pf else none

/-! ## Billing pipeline (from `lib.rs`, `pay_multi_utility_bill`) -/

/-- The tier-loop guard: `consumption >= min_units && consumption <= max_units`. -/
def tierMatches (consumption : Int) (t : TierRate) : Bool :=
  t.min_units ≤ consumption && consumption ≤ t.max_units

/-- Step 5 of the pipeline: scan tiers in stored order; the first
matching tier replaces the base amount with
`consumption * rate_per_unit` and the loop breaks. -/
def tierApply (tiers : List TierRate) (consumption base : Int) : Int :=
  match tiers with
  | [] => base
  | t :: rest =>
    if tierMatches consumption t then consumption * t.rate_per_unit
    else tierApply rest consumption base

/-- The time-of-use guard: hour within `[start_hour, end_hour]` and
weekday contained in `days_of_week`. -/
def touMatches (hour weekday : Nat) (r : TimeOfUseRate) : Bool :=
  r.start_hour ≤ hour && hour ≤ r.end_hour && r.days_of_week.contains weekday

/-- Step 6 of the pipeline: scan time-of-use rules in stored order;
the first matching rule multiplies the base amount by
`rate_multiplier / 100` (truncating division) and the loop breaks. -/
def touApply (rules : List TimeOfUseRate) (hour weekday : Nat) (base : Int) : Int :=
  match rules with
  | [] => base
  | r :: rest =>
    if touMatches hour weekday r then idiv (base * r.rate_multiplier) 100
    else touApply rest hour weekday base

/-- Step 7 of the pipeline: `tax_amount` accumulates
`(base_amount * rate_percentage) / 100` for every configured tax;
the `is_compound` and `max_amount` fields are not consulted. -/
def taxSum (taxes : List TaxRate) (base : Int) : Int :=
  taxes.foldl (fun acc t => acc + idiv (base * t.rate_percentage) 100) 0

/-- The base amount after steps 4-6: `consumption * base_rate`, then
the tier override, then the time-of-use override with
`hour = (now / 3600) % 24` and `weekday = (now / 86400) % 7`. -/
def baseAmount (config : UtilityConfig) (consumption : Int) (now : Nat) : Int :=
  touApply config.time_of_use_rates (now / 3600 % 24) (now / 86400 % 7)
    (tierApply config.tier_rates consumption (consumption * config.base_rate))

/-- Steps 4-10 of the pipeline: base amount, taxes, the fee placeholder
(`1000000` whenever `apply_fees`, regardless of the fee registry),
subtotal, and currency conversion through `get_price_feed` when the
configuration's currency differs from the requested one. -/
def computeAmounts (st : ContractState) (config : UtilityConfig)
    (consumption : Int) (currency : String) (apply_fees : Bool) (now : Nat) :
    Except String BillingData :=
  let base := baseAmount config consumption now
  let tax := taxSum config.tax_rates base
  let fee : Int := if apply_fees then 1000000 else 0
  let subtotal := base + tax + fee
  if config.currency ≠ currency then
    match get_price_feed st now (config.currency ++ "_" ++ currency) with
    | none => .error "Exchange rate not available"
    | some pf =>
      .ok ⟨consumption, base, tax, fee,
           idiv (subtotal * pf.price) (10 ^ pf.decimals), 0, 0⟩
  else
    .ok ⟨consumption, base, tax, fee, subtotal, 0, 0⟩

/-- Result of `pay_multi_utility_bill`: the returned `Result`, the
storage after the call, and the token transfers the call performed. -/
structure PayResult where
  outcome : Except String Unit
  state : ContractState
  transfers : List Transfer
deriving Repr

/-- Embeds `NepaBillingContract::pay_multi_utility_bill`: resolve the meter
and the configuration (keyed by `provider_id ++ "_" ++ region`),
compute the amounts, check the payment bounds, and only then transfer
the final amount, persist the billing record under
`(meter_id, timestamp)`, and increment the provider's transaction
counter when the provider is present (silently skipping it
otherwise). Every error path returns before any write or transfer. -/
def pay_multi_utility_bill (st : ContractState) (source : Address)
    (meter_id : String) (consumption : Int) (currency : String)
    (apply_fees : Bool) (now : Nat) : PayResult :=
  match alookup st.meters meter_id with
  | none => ⟨.error "Meter not found", st, []⟩
  | some meter =>
    if !meter.is_active then ⟨.error "Meter is not active", st, []⟩
    else
      match alookup st.configs (meter.provider_id ++ "_" ++ meter.region) with
      | none => ⟨.error "Utility configuration not found", st, []⟩
      | some config =>
        if !config.is_active then
          ⟨.error "Utility configuration is not active", st, []⟩
        else
          match computeAmounts st config consumption currency apply_fees now with
          | .error e => ⟨.error e, st, []⟩
          | .ok amounts =>
            if amounts.final_amount < config.minimum_payment then
              ⟨.error "Amount below minimum payment", st, []⟩
            else if amounts.final_amount > config.maximum_payment then
              ⟨.error "Amount exceeds maximum payment", st, []⟩
            else
              let record : BillingData :=
                { amounts with utility_type_u8 := meter.utility_type.to_u8,
                               config_version := config.version }
              let billing := aset st.billing (meter_id, now) record
              let providers :=
                match alookup st.providers meter.provider_id with
                | some provider =>
                  aset st.providers meter.provider_id
                    { provider with
                        total_transactions := provider.total_transactions + 1 }
                | none => st.providers
              ⟨.ok (),
               { st with billing := billing, providers := providers },
               [⟨source, "contract", amounts.final_amount⟩]⟩

/-- From the spec's words, for comparison with `taxSum`: each
compounding tax applies to the running subtotal including previously
applied compounding taxes, each non-compound tax applies to the base
amount, and every tax's contribution is capped at its configured
`max_amount` when present. -/
def taxAmountFromSpec (taxes : List TaxRate) (base : Int) : Int :=
  go taxes base 0
where
  /-- Accumulate contributions, threading the compound running subtotal. -/
  go : List TaxRate → Int → Int → Int
  | [], _, acc => acc
  | t :: rest, running, acc =>
    let basis := if t.is_compound then running else base
    let raw := idiv (basis * t.rate_percentage) 100
    let contribution :=
      match t.max_amount with
      | some cap => min raw cap
      | none => raw
    go rest (if t.is_compound then running + contribution else running)
      (acc + contribution)

/-! ## Concrete fixtures -/

/-- A state with every collection empty. -/
def emptyState : ContractState :=
  { providers := [], configs := [], meters := [], fees := [], versions := [],
    price_feeds := [], billing := [], oracle_config := ⟨300, 70, true, 1000000⟩ }

/-- An active electricity meter of provider `P1` in region `Lagos`. -/
def testMeter : UtilityMeter :=
  { meter_id := "M1", utility_type := .Electricity, provider_id := "P1",
    region := "Lagos", customer_address := "cust", installation_date := 0,
    last_reading := 0, last_reading_date := 0, is_active := true,
    is_smart_meter := false, location := "loc", meter_model := "m",
    firmware_version := "fw" }

/-- An active configuration for `P1`/`Lagos`: base rate 10, USD, no
tiers, time-of-use rules or taxes, bounds `[0, 100000000000]`. -/
def testConfig : UtilityConfig :=
  { utility_type := .Electricity, provider_id := "P1", region := "Lagos",
    base_rate := 10, currency := "USD", decimals := 7,
    tier_rates := [], time_of_use_rates := [], seasonal_adjustments := [],
    tax_rates := [], discount_rates := [],
    late_fee_config := ⟨1000000, 500, 10000000, 7, false⟩,
    payment_methods := [], billing_cycle_days := 30, grace_period_days := 7,
    minimum_payment := 0, maximum_payment := 100000000000, is_active := true,
    version := 1, last_updated := 0 }

/-- Meter `M1` plus the matching configuration, nothing else. -/
def baseState : ContractState :=
  { emptyState with
    configs := [("P1_Lagos", testConfig)],
    meters := [("M1", testMeter)] }

/-- A configuration with two compounding 10% taxes, used against C3. -/
def compoundTaxConfig : UtilityConfig :=
  { testConfig with
    tax_rates := [⟨"A", 10, true, none⟩, ⟨"B", 10, true, none⟩] }

/-- State `baseState` with `compoundTaxConfig` installed for `P1`/`Lagos`. -/
def compoundTaxState : ContractState :=
  { baseState with configs := [("P1_Lagos", compoundTaxConfig)] }

/-- A registered fixed 500-stroop processing fee for `P1`/Electricity. -/
def registeredFee : UtilityFee :=
  ⟨"F1", .Electricity, "P1", .Processing, 500, none, false, "proc", true, 0⟩

/-- The result of registering provider `P1` on the empty state. -/
def firstRegistration : OpResult :=
  register_provider emptyState "P1" "Lagos Power" "addrP1" 1 "Lagos" "LIC-1"
    "contact" 100

/-- The provider fixture for the C8 witness. -/
def witnessProvider : UtilityProvider :=
  ⟨"P1", "Lagos Power", "addrP1", .Electricity, "Lagos", true, 0, "LIC-1",
    "info", 5, 0⟩

/-- The start state for the C8 witness: just provider `P1`. -/
def upgradeStart : ContractState :=
  { emptyState with providers := [("P1", witnessProvider)] }

/-- Two upgrade steps for the C8 witness. -/
def upgradeSteps : List (UtilityConfig × Nat) := [(testConfig, 60), (testConfig, 70)]

/-! ## Association-list lemmas -/

theorem alookup_aset_self {α β : Type} [DecidableEq α]
    (l : List (α × β)) (k : α) (v : β) :
    alookup (aset l k v) k = some v := by
  induction l with
  | nil => simp [aset, alookup]
  | cons hd tl ih =>
    obtain ⟨k0, v0⟩ := hd
    by_cases h : k = k0
    · simp [aset, alookup, h]
    · simp [aset, alookup, h, ih]

theorem alookup_aset_ne {α β : Type} [DecidableEq α]
    (l : List (α × β)) (k k' : α) (v : β) (h : k' ≠ k) :
    alookup (aset l k v) k' = alookup l k' := by
  induction l with
  | nil => simp [aset, alookup, h]
  | cons hd tl ih =>
    obtain ⟨k0, v0⟩ := hd
    by_cases h0 : k = k0
    · subst h0; simp [aset, alookup, h]
    · by_cases h1 : k' = k0
      · simp [aset, alookup, h0, h1]
      · simp [aset, alookup, h0, h1, ih]

/-- Setting an absent key appends it at the end of the list. -/
theorem aset_of_alookup_none {α β : Type} [DecidableEq α]
    (l : List (α × β)) (k : α) (v : β) (h : alookup l k = none) :
    aset l k v = l ++ [(k, v)] := by
  induction l with
  | nil => simp [aset]
  | cons hd tl ih =>
    obtain ⟨k0, v0⟩ := hd
    simp only [alookup] at h
    by_cases h0 : k = k0
    · simp [h0] at h
    · simp only [aset, if_neg h0, List.cons_append, List.cons.injEq, true_and]
      exact ih (by simpa [h0] using h)

/-- A list whose filtered part is empty has no binding whose key
satisfies the filter. -/
theorem alookup_eq_none_of_filter_nil {α β : Type} [DecidableEq α]
    (l : List (α × β)) (p : α × β → Bool) (hp : l.filter p = [])
    (k : α) (hk : ∀ v : β, p (k, v) = true) :
    alookup l k = none := by
  induction l with
  | nil => rfl
  | cons hd tl ih =>
    obtain ⟨k0, v0⟩ := hd
    rw [List.filter_cons] at hp
    by_cases h0 : p (k0, v0) = true
    · simp [h0] at hp
    · simp only [h0] at hp
      simp only [Bool.false_eq_true, if_neg] at hp
      have hne : k ≠ k0 := by
        intro he; subst he; exact h0 (hk v0)
      simp [alookup, hne, ih hp]

/-! ## First-match lemmas for the tier and time-of-use scans -/

theorem tierApply_of_none (tiers : List TierRate) (consumption base : Int)
    (h : ∀ t ∈ tiers, tierMatches consumption t = false) :
    tierApply tiers consumption base = base := by
  induction tiers with
  | nil => rfl
  | cons t rest ih =>
    have ht : tierMatches consumption t = false := h t (by simp)
    simp only [tierApply, ht, Bool.false_eq_true, if_false]
    exact ih fun u hu => h u (by simp [hu])

theorem tierApply_of_first (tiers : List TierRate) (consumption base : Int)
    (i : Nat) (hi : i < tiers.length)
    (hmatch : tierMatches consumption (tiers.get ⟨i, hi⟩) = true)
    (hbefore : ∀ k, (hk : k < i) →
      tierMatches consumption (tiers.get ⟨k, Nat.lt_trans hk hi⟩) = false) :
    tierApply tiers consumption base
      = consumption * (tiers.get ⟨i, hi⟩).rate_per_unit := by
  induction tiers generalizing i with
  | nil => exact absurd hi (Nat.not_lt_zero i)
  | cons t rest ih =>
    cases i with
    | zero =>
      have h0 : tierMatches consumption t = true := hmatch
      simp only [tierApply, h0, if_true]
      rfl
    | succ n =>
      have h0 : tierMatches consumption t = false := hbefore 0 (Nat.succ_pos n)
      simp only [tierApply, h0, Bool.false_eq_true, if_false]
      exact ih n (Nat.lt_of_succ_lt_succ hi) hmatch
        (fun k hk => hbefore (k + 1) (Nat.succ_lt_succ hk))

theorem touApply_of_none (rules : List TimeOfUseRate) (hour weekday : Nat)
    (base : Int) (h : ∀ r ∈ rules, touMatches hour weekday r = false) :
    touApply rules hour weekday base = base := by
  induction rules with
  | nil => rfl
  | cons r rest ih =>
    have hr : touMatches hour weekday r = false := h r (by simp)
    simp only [touApply, hr, Bool.false_eq_true, if_false]
    exact ih fun u hu => h u (by simp [hu])

theorem touApply_of_first (rules : List TimeOfUseRate) (hour weekday : Nat)
    (base : Int) (i : Nat) (hi : i < rules.length)
    (hmatch : touMatches hour weekday (rules.get ⟨i, hi⟩) = true)
    (hbefore : ∀ k, (hk : k < i) →
      touMatches hour weekday (rules.get ⟨k, Nat.lt_trans hk hi⟩) = false) :
    touApply rules hour weekday base
      = idiv (base * (rules.get ⟨i, hi⟩).rate_multiplier) 100 := by
  induction rules generalizing i with
  | nil => exact absurd hi (Nat.not_lt_zero i)
  | cons r rest ih =>
    cases i with
    | zero =>
      have h0 : touMatches hour weekday r = true := hmatch
      simp only [touApply, h0, if_true]
      rfl
    | succ n =>
      have h0 : touMatches hour weekday r = false := hbefore 0 (Nat.succ_pos n)
      simp only [touApply, h0, Bool.false_eq_true, if_false]
      exact ih n (Nat.lt_of_succ_lt_succ hi) hmatch
        (fun k hk => hbefore (k + 1) (Nat.succ_lt_succ hk))

/-! ## Claims -/

/-- C5: tier selection in `pay_multi_utility_bill` is first-match in
stored order: if the inclusive range of tier `i` contains the
consumption and every earlier tier's range does not (later tiers may
also match), the base amount becomes `consumption * rate_per_unit` of
tier `i` and scanning stops there; if no tier matches, the base amount
stays `consumption * base_rate`. -/
theorem tier_first_match_wins (tiers : List TierRate)
    (consumption base_rate : Int) :
    (∀ i, (hi : i < tiers.length) →
      tierMatches consumption (tiers.get ⟨i, hi⟩) = true →
      (∀ k, (hk : k < i) →
        tierMatches consumption (tiers.get ⟨k, Nat.lt_trans hk hi⟩) = false) →
      tierApply tiers consumption (consumption * base_rate)
        = consumption * (tiers.get ⟨i, hi⟩).rate_per_unit)
    ∧ ((∀ t ∈ tiers, tierMatches consumption t = false) →
      tierApply tiers consumption (consumption * base_rate)
        = consumption * base_rate) :=
  ⟨fun i hi hmatch hbefore =>
      tierApply_of_first tiers consumption (consumption * base_rate) i hi
        hmatch hbefore,
    fun h => tierApply_of_none tiers consumption (consumption * base_rate) h⟩

/-- Witness for C5 at two overlapping tiers: consumption 50 lies in
`[0, 100]` (rate 7) and in `[50, 200]` (rate 9); the first tier's rate
is applied. -/
theorem tier_first_match_wins_witness :
    tierApply [⟨0, 100, 7, "t1"⟩, ⟨50, 200, 9, "t2"⟩] 50 (50 * 10) = 50 * 7 :=
  (tier_first_match_wins [⟨0, 100, 7, "t1"⟩, ⟨50, 200, 9, "t2"⟩] 50 10).1
    0 (by decide) (by decide) (fun k hk => absurd hk (Nat.not_lt_zero k))

/-- C6: with `hour = (now / 3600) % 24` and `weekday = (now / 86400) % 7`
derived from the ledger timestamp, the first stored time-of-use rule
whose hour range contains `hour` and whose weekday set contains
`weekday` multiplies the base amount by `rate_multiplier / 100` with
truncating integer division, and scanning stops; a timestamp matching
no rule leaves the base amount unchanged. -/
theorem tou_first_match_multiplies (rules : List TimeOfUseRate) (now : Nat)
    (base : Int) :
    (∀ i, (hi : i < rules.length) →
      touMatches (now / 3600 % 24) (now / 86400 % 7) (rules.get ⟨i, hi⟩) = true →
      (∀ k, (hk : k < i) →
        touMatches (now / 3600 % 24) (now / 86400 % 7)
          (rules.get ⟨k, Nat.lt_trans hk hi⟩) = false) →
      touApply rules (now / 3600 % 24) (now / 86400 % 7) base
        = idiv (base * (rules.get ⟨i, hi⟩).rate_multiplier) 100)
    ∧ ((∀ r ∈ rules,
        touMatches (now / 3600 % 24) (now / 86400 % 7) r = false) →
      touApply rules (now / 3600 % 24) (now / 86400 % 7) base = base) :=
  ⟨fun i hi hmatch hbefore =>
      touApply_of_first rules (now / 3600 % 24) (now / 86400 % 7) base i hi
        hmatch hbefore,
    fun h => touApply_of_none rules (now / 3600 % 24) (now / 86400 % 7) base h⟩

/-- Witness for C6: at timestamp 1000 the derived hour is 0 and the
derived weekday is 0; the rule covering hours `[0, 5]` on weekday 0
with multiplier 150 turns base 500 into 750. -/
theorem tou_first_match_multiplies_witness :
    touApply [⟨0, 5, [0], 150, "s"⟩] (1000 / 3600 % 24) (1000 / 86400 % 7) 500
      = idiv (500 * 150) 100 :=
  (tou_first_match_multiplies [⟨0, 5, [0], 150, "s"⟩] 1000 500).1
    0 (by decide) (by decide) (fun k hk => absurd hk (Nat.not_lt_zero k))

/-- C7: once the meter and configuration resolve and the amounts
compute, a final amount strictly below `minimum_payment` fails with
the below-minimum error, a final amount strictly above
`maximum_payment` fails with the above-maximum error, and a final
amount within the inclusive bounds (so also one exactly equal to
either bound) is accepted. -/
theorem payment_bounds_inclusive (st : ContractState) (source : Address)
    (meter_id : String) (consumption : Int) (currency : String)
    (apply_fees : Bool) (now : Nat) (meter : UtilityMeter)
    (config : UtilityConfig) (amounts : BillingData)
    (hm : alookup st.meters meter_id = some meter)
    (hma : meter.is_active = true)
    (hc : alookup st.configs (meter.provider_id ++ "_" ++ meter.region)
      = some config)
    (hca : config.is_active = true)
    (ha : computeAmounts st config consumption currency apply_fees now
      = .ok amounts)
    (hmono : config.minimum_payment ≤ config.maximum_payment) :
    (amounts.final_amount < config.minimum_payment →
      (pay_multi_utility_bill st source meter_id consumption currency
        apply_fees now).outcome = .error "Amount below minimum payment")
    ∧ (config.maximum_payment < amounts.final_amount →
      (pay_multi_utility_bill st source meter_id consumption currency
        apply_fees now).outcome = .error "Amount exceeds maximum payment")
    ∧ (config.minimum_payment ≤ amounts.final_amount →
      amounts.final_amount ≤ config.maximum_payment →
      (pay_multi_utility_bill st source meter_id consumption currency
        apply_fees now).outcome = .ok ()) := by
  refine ⟨fun hlow => ?_, fun hhigh => ?_, fun hmin hmax => ?_⟩
  · simp [pay_multi_utility_bill, hm, hma, hc, hca, ha, hlow]
  · simp [pay_multi_utility_bill, hm, hma, hc, hca, ha,
      not_lt.mpr (le_trans hmono (le_of_lt hhigh)), hhigh]
  · simp [pay_multi_utility_bill, hm, hma, hc, hca, ha,
      not_lt.mpr hmin, not_lt.mpr hmax]

/-- Witness for C7 at a configuration whose minimum and maximum
payment both equal the computed final amount 500: the boundary value
is accepted. -/
theorem payment_bounds_inclusive_witness :
    (pay_multi_utility_bill
      { baseState with
        configs := [("P1_Lagos",
          { testConfig with minimum_payment := 500, maximum_payment := 500 })] }
      "payer" "M1" 50 "USD" false 1000).outcome = .ok () :=
  (payment_bounds_inclusive
      { baseState with
        configs := [("P1_Lagos",
          { testConfig with minimum_payment := 500, maximum_payment := 500 })] }
      "payer" "M1" 50 "USD" false 1000 testMeter
      { testConfig with minimum_payment := 500, maximum_payment := 500 }
      ⟨50, 500, 0, 0, 500, 0, 0⟩
      (by rfl) (by rfl) (by rfl) (by rfl) (by rfl) (by decide)).2.2
    (by decide) (by decide)

/-- C1: when the configuration's currency differs from the requested
one and the stored price feed for the pair is stale
(`now - last_updated > max_age_seconds`), `pay_multi_utility_bill`
fails with an error, leaves the storage untouched and performs no
transfer, so nothing is computed from the stale price. -/
theorem stale_feed_fails (st : ContractState) (source : Address)
    (meter_id : String) (consumption : Int) (currency : String)
    (apply_fees : Bool) (now : Nat) (meter : UtilityMeter)
    (config : UtilityConfig) (pf : PriceFeed)
    (hm : alookup st.meters meter_id = some meter)
    (hma : meter.is_active = true)
    (hc : alookup st.configs (meter.provider_id ++ "_" ++ meter.region)
      = some config)
    (hca : config.is_active = true)
    (hcur : config.currency ≠ currency)
    (hpf : alookup st.price_feeds (config.currency ++ "_" ++ currency)
      = some pf)
    (hstale : st.oracle_config.max_age_seconds < now - pf.last_updated) :
    (pay_multi_utility_bill st source meter_id consumption currency
        apply_fees now).outcome = .error "Exchange rate not available"
    ∧ (pay_multi_utility_bill st source meter_id consumption currency
        apply_fees now).state = st
    ∧ (pay_multi_utility_bill st source meter_id consumption currency
        apply_fees now).transfers = [] := by
  have hgate : get_price_feed st now (config.currency ++ "_" ++ currency)
      = none := by
    simp [get_price_feed, hpf, not_le.mpr hstale]
  have hamounts : computeAmounts st config consumption currency apply_fees now
      = .error "Exchange rate not available" := by
    simp [computeAmounts, hcur, hgate]
  refine ⟨?_, ?_, ?_⟩ <;>
    simp [pay_multi_utility_bill, hm, hma, hc, hca, hamounts]

/-- Witness for C1: feed `USD_EUR` last updated at time 0, queried at
time 1000 with a 300-second maximum age: the call fails and mutates
nothing. -/
theorem stale_feed_fails_witness :
    (pay_multi_utility_bill
        { baseState with
          price_feeds := [("USD_EUR", ⟨"feed", "USD", "EUR", 7, 0, 20000000, 90⟩)] }
        "payer" "M1" 50 "EUR" false 1000).outcome
      = .error "Exchange rate not available"
    ∧ (pay_multi_utility_bill
        { baseState with
          price_feeds := [("USD_EUR", ⟨"feed", "USD", "EUR", 7, 0, 20000000, 90⟩)] }
        "payer" "M1" 50 "EUR" false 1000).state
      = { baseState with
          price_feeds := [("USD_EUR", ⟨"feed", "USD", "EUR", 7, 0, 20000000, 90⟩)] }
    ∧ (pay_multi_utility_bill
        { baseState with
          price_feeds := [("USD_EUR", ⟨"feed", "USD", "EUR", 7, 0, 20000000, 90⟩)] }
        "payer" "M1" 50 "EUR" false 1000).transfers = [] :=
  stale_feed_fails
    { baseState with
      price_feeds := [("USD_EUR", ⟨"feed", "USD", "EUR", 7, 0, 20000000, 90⟩)] }
    "payer" "M1" 50 "EUR" false 1000 testMeter testConfig
    ⟨"feed", "USD", "EUR", 7, 0, 20000000, 90⟩
    (by decide) (by decide) (by decide) (by decide) (by decide) (by decide)
    (by decide)

/-- C10: when every validation step succeeds but the providers map has
no entry for the meter's provider id, the call still returns `Ok`: the
transfer is performed and the billing record persisted, while the
provider transaction-counter update is silently skipped and the
providers map is left as it was. -/
theorem missing_provider_is_skipped (st : ContractState) (source : Address)
    (meter_id : String) (consumption : Int) (currency : String)
    (apply_fees : Bool) (now : Nat) (meter : UtilityMeter)
    (config : UtilityConfig) (amounts : BillingData)
    (hm : alookup st.meters meter_id = some meter)
    (hma : meter.is_active = true)
    (hc : alookup st.configs (meter.provider_id ++ "_" ++ meter.region)
      = some config)
    (hca : config.is_active = true)
    (ha : computeAmounts st config consumption currency apply_fees now
      = .ok amounts)
    (hmin : config.minimum_payment ≤ amounts.final_amount)
    (hmax : amounts.final_amount ≤ config.maximum_payment)
    (hp : alookup st.providers meter.provider_id = none) :
    (pay_multi_utility_bill st source meter_id consumption currency
        apply_fees now).outcome = .ok ()
    ∧ (pay_multi_utility_bill st source meter_id consumption currency
        apply_fees now).transfers
      = [⟨source, "contract", amounts.final_amount⟩]
    ∧ alookup (pay_multi_utility_bill st source meter_id consumption currency
        apply_fees now).state.billing (meter_id, now)
      = some { amounts with utility_type_u8 := meter.utility_type.to_u8,
                            config_version := config.version }
    ∧ (pay_multi_utility_bill st source meter_id consumption currency
        apply_fees now).state.providers = st.providers := by
  refine ⟨?_, ?_, ?_, ?_⟩ <;>
    simp [pay_multi_utility_bill, hm, hma, hc, hca, ha,
      not_lt.mpr hmin, not_lt.mpr hmax, hp, alookup_aset_self]

/-- Witness for C10: `baseState` registers no provider at all; the
payment at meter `M1` succeeds, transfers the final amount 500,
persists the billing record and leaves the (empty) providers map
unchanged. -/
theorem missing_provider_is_skipped_witness :
    (pay_multi_utility_bill baseState "payer" "M1" 50 "USD" false
        1000).outcome = .ok ()
    ∧ (pay_multi_utility_bill baseState "payer" "M1" 50 "USD" false
        1000).transfers = [⟨"payer", "contract", 500⟩]
    ∧ alookup (pay_multi_utility_bill baseState "payer" "M1" 50 "USD" false
        1000).state.billing ("M1", 1000) = some ⟨50, 500, 0, 0, 500, 1, 1⟩
    ∧ (pay_multi_utility_bill baseState "payer" "M1" 50 "USD" false
        1000).state.providers = baseState.providers :=
  missing_provider_is_skipped baseState "payer" "M1" 50 "USD" false 1000
    testMeter testConfig ⟨50, 500, 0, 0, 500, 0, 0⟩
    (by rfl) (by rfl) (by rfl) (by rfl) (by rfl) (by decide)
    (by decide) (by rfl)

/-- C2: whenever `pay_multi_utility_bill` returns an error — missing
or inactive meter or configuration, unavailable exchange rate, or a
final amount out of bounds — the storage is exactly the input storage
(no billing record, no provider counter change) and no transfer was
performed: every write happens only after all validation steps
succeed. -/
theorem error_leaves_state_unchanged (st : ContractState) (source : Address)
    (meter_id : String) (consumption : Int) (currency : String)
    (apply_fees : Bool) (now : Nat) (e : String)
    (h : (pay_multi_utility_bill st source meter_id consumption currency
      apply_fees now).outcome = .error e) :
    (pay_multi_utility_bill st source meter_id consumption currency
      apply_fees now).state = st
    ∧ (pay_multi_utility_bill st source meter_id consumption currency
      apply_fees now).transfers = [] := by
  rcases hm : alookup st.meters meter_id with _ | meter
  · simp [pay_multi_utility_bill, hm]
  · rcases hma : meter.is_active with _ | _
    · simp [pay_multi_utility_bill, hm, hma]
    · rcases hc : alookup st.configs (meter.provider_id ++ "_" ++ meter.region)
        with _ | config
      · simp [pay_multi_utility_bill, hm, hma, hc]
      · rcases hca : config.is_active with _ | _
        · simp [pay_multi_utility_bill, hm, hma, hc, hca]
        · rcases ha : computeAmounts st config consumption currency apply_fees
            now with e' | amounts
          · simp [pay_multi_utility_bill, hm, hma, hc, hca, ha]
          · by_cases hlow : amounts.final_amount < config.minimum_payment
            · simp [pay_multi_utility_bill, hm, hma, hc, hca, ha, hlow]
            · by_cases hhigh : config.maximum_payment < amounts.final_amount
              · simp [pay_multi_utility_bill, hm, hma, hc, hca, ha, hlow,
                  hhigh]
              · exact absurd h (by
                  simp [pay_multi_utility_bill, hm, hma, hc, hca, ha, hlow,
                    hhigh])

/-- Witness for C2: on the empty state the call fails with
`Meter not found` and changes nothing. -/
theorem error_leaves_state_unchanged_witness :
    (pay_multi_utility_bill emptyState "payer" "M1" 50 "USD" false
      1000).state = emptyState
    ∧ (pay_multi_utility_bill emptyState "payer" "M1" 50 "USD" false
      1000).transfers = [] :=
  error_leaves_state_unchanged emptyState "payer" "M1" 50 "USD" false 1000
    "Meter not found" (by rfl)

/-- C3, counterexample: with two compounding 10% taxes on base amount
1000, the billing record written by `pay_multi_utility_bill` carries
`tax_amount = 200` (both taxes applied flat to the base), while
honoring the compound flags as the claim states would give 210; the
pipeline also never reads `is_compound` or `max_amount`. -/
theorem tax_compound_counterexample :
    (alookup (pay_multi_utility_bill compoundTaxState "payer" "M1" 100 "USD"
        false 1000).state.billing ("M1", 1000)).map BillingData.tax_amount
      = some 200
    ∧ taxAmountFromSpec compoundTaxConfig.tax_rates 1000 = 210
    ∧ taxSum compoundTaxConfig.tax_rates 1000
      ≠ taxAmountFromSpec compoundTaxConfig.tax_rates 1000 :=
  ⟨rfl, rfl, by decide⟩

theorem taxSum_eq_map_sum (taxes : List TaxRate) (base : Int) :
    taxSum taxes base
      = (taxes.map (fun t => idiv (base * t.rate_percentage) 100)).sum := by
  suffices h : ∀ (l : List TaxRate) (a : Int),
      List.foldl (fun acc t => acc + idiv (base * t.rate_percentage) 100) a l
        = a + (l.map (fun t => idiv (base * t.rate_percentage) 100)).sum by
    simpa [taxSum] using h taxes 0
  intro l
  induction l with
  | nil => simp
  | cons t rest ih =>
    intro a
    simp only [List.foldl_cons, List.map_cons, List.sum_cons, ih]
    ring

/-- C3, amended: the tax amount computed by the pipeline is the plain
sum of `(base_amount * rate_percentage) / 100` over the configured
taxes — every tax applies to the base amount regardless of its
`is_compound` flag, and no `max_amount` cap is applied. -/
theorem tax_applies_flat_to_base (st : ContractState) (config : UtilityConfig)
    (consumption : Int) (currency : String) (apply_fees : Bool) (now : Nat)
    (amounts : BillingData)
    (h : computeAmounts st config consumption currency apply_fees now
      = .ok amounts) :
    amounts.tax_amount
      = (config.tax_rates.map
          (fun t => idiv (baseAmount config consumption now
            * t.rate_percentage) 100)).sum := by
  have hsum := taxSum_eq_map_sum config.tax_rates
    (baseAmount config consumption now)
  simp only [computeAmounts] at h
  split at h
  · split at h
    · exact absurd h (by simp)
    · simp only [Except.ok.injEq] at h
      subst h
      exact hsum
  · simp only [Except.ok.injEq] at h
    subst h
    exact hsum

/-- Witness for the amended C3 on the two-compound-tax configuration:
the computed tax amount 200 equals the flat per-tax sum. -/
theorem tax_applies_flat_to_base_witness :
    (⟨100, 1000, 200, 0, 1200, 0, 0⟩ : BillingData).tax_amount
      = (compoundTaxConfig.tax_rates.map
          (fun t => idiv (baseAmount compoundTaxConfig 100 1000
            * t.rate_percentage) 100)).sum :=
  tax_applies_flat_to_base compoundTaxState compoundTaxConfig 100 "USD" false
    1000 ⟨100, 1000, 200, 0, 1200, 0, 0⟩ (by rfl)

/-- C4: with `apply_fees = true` the pipeline charges the hardcoded
default 1000000 fee in every case — it neither returns 0 when no fee
is registered (here `fees = []`) nor sums registered fees (here a
fixed 500 fee is registered and ignored). -/
theorem default_fee_always_charged :
    baseState.fees = []
    ∧ (alookup (pay_multi_utility_bill baseState "payer" "M1" 50 "USD" true
        1000).state.billing ("M1", 1000)).map BillingData.fee_amount
      = some 1000000
    ∧ (alookup (pay_multi_utility_bill
        { baseState with fees := [("F1", registeredFee)] } "payer" "M1" 50
        "USD" true 1000).state.billing ("M1", 1000)).map BillingData.fee_amount
      = some 1000000 :=
  ⟨rfl, rfl, rfl⟩

/-- C9: registering `P1` succeeds and stores the provider with
`rating = 5` — the maximum of the documented 1-5 range, not the
neutral midpoint 3 the claim demands — and zero transactions; a second
registration of the same id fails with the already-registered error
and leaves the stored state exactly as it was. -/
theorem provider_rating_and_duplicate :
    firstRegistration.outcome = .ok ()
    ∧ (alookup firstRegistration.state.providers "P1").map
        UtilityProvider.rating = some 5
    ∧ (alookup firstRegistration.state.providers "P1").map
        UtilityProvider.total_transactions = some 0
    ∧ (register_provider firstRegistration.state "P1" "Other" "addr2" 1
        "Abuja" "LIC-2" "c2" 200).outcome
      = .error "Provider already registered"
    ∧ (register_provider firstRegistration.state "P1" "Other" "addr2" 1
        "Abuja" "LIC-2" "c2" 200).state = firstRegistration.state :=
  ⟨rfl, rfl, rfl, rfl, rfl⟩

theorem filter_length_aset_fresh {α β : Type} [DecidableEq α]
    (l : List (α × β)) (k : α) (v : β) (p : α × β → Bool)
    (hfresh : alookup l k = none) (hp : p (k, v) = true) :
    ((aset l k v).filter p).length = (l.filter p).length + 1 := by
  rw [aset_of_alookup_none l k v hfresh, List.filter_append]
  simp [hp]

theorem upgradeSeq_invariant (steps : List (UtilityConfig × Nat)) :
    ∀ (st : ContractState) (config_id : String) (c : UtilityConfig) (n : Nat),
    alookup st.configs config_id = some c → c.version = n + 1 →
    (st.versions.filter (fun kv => kv.1.1 == config_id)).length = n →
    (∀ v, n + 2 ≤ v → alookup st.versions (config_id, v) = none) →
    ∃ st' c', upgradeSeq st config_id steps = ⟨.ok (), st'⟩
      ∧ alookup st'.configs config_id = some c'
      ∧ c'.version = n + 1 + steps.length
      ∧ (st'.versions.filter (fun kv => kv.1.1 == config_id)).length
          = n + steps.length := by
  induction steps with
  | nil =>
    intro st cid c n hc hv hcount hfresh
    exact ⟨st, c, rfl, hc, by simpa using hv, by simpa using hcount⟩
  | cons step rest ih =>
    intro st cid c n hc hv hcount hfresh
    obtain ⟨cfg, t⟩ := step
    have hfreshkey : alookup st.versions (cid, c.version + 1) = none :=
      hfresh (c.version + 1) (by omega)
    obtain ⟨st', c', hrun, hc', hv', hcount'⟩ := ih
      { st with
        versions := aset st.versions (cid, c.version + 1)
          ⟨c.utility_type, c.version + 1, "hash_placeholder", t, true, true,
            "Configuration upgrade"⟩,
        configs := aset st.configs cid
          { cfg with version := c.version + 1, last_updated := t } }
      cid { cfg with version := c.version + 1, last_updated := t } (n + 1)
      (alookup_aset_self _ _ _) (by simp [hv])
      (by
        simp only
        rw [filter_length_aset_fresh _ _ _ _ hfreshkey (by simp)]
        omega)
      (by
        intro v hvge
        simp only
        rw [alookup_aset_ne st.versions (cid, c.version + 1) (cid, v) _
          (by
            intro hEq
            have : v = c.version + 1 := by
              simpa using congrArg Prod.snd hEq
            omega)]
        exact hfresh v (by omega))
    refine ⟨st', c', ?_, hc', by simp only [List.length_cons]; omega,
      by simp only [List.length_cons]; omega⟩
    simpa [upgradeSeq, upgrade_utility_config, hc] using hrun

/-- C8: a configuration created by `add_utility_config` starts at
version 1; after any sequence of `N` successful
`upgrade_utility_config` calls its stored version equals `1 + N`, and
the version-history store holds exactly `N` records for that
configuration id (one appended per upgrade), provided the history held
none for that id beforehand. -/
theorem version_after_upgrades (st : ContractState) (config_id : String)
    (ut : Nat) (provider_id region : String) (base_rate : Int)
    (currency : String) (decimals billing_cycle_days grace_period_days : Nat)
    (minimum_payment maximum_payment : Int) (now : Nat)
    (st₁ : ContractState) (steps : List (UtilityConfig × Nat))
    (hadd : add_utility_config st config_id ut provider_id region base_rate
        currency decimals billing_cycle_days grace_period_days minimum_payment
        maximum_payment now = ⟨.ok (), st₁⟩)
    (hclean : st.versions.filter (fun kv => kv.1.1 == config_id) = []) :
    ∃ st₂ c, upgradeSeq st₁ config_id steps = ⟨.ok (), st₂⟩
      ∧ alookup st₂.configs config_id = some c
      ∧ c.version = 1 + steps.length
      ∧ (st₂.versions.filter (fun kv => kv.1.1 == config_id)).length
          = steps.length := by
  simp only [add_utility_config] at hadd
  cases hut : UtilityType.from_u8 ut with
  | error e => rw [hut] at hadd; simp at hadd
  | ok utEnum =>
    rw [hut] at hadd
    cases hp : alookup st.providers provider_id with
    | none => rw [hp] at hadd; simp at hadd
    | some provider =>
      rw [hp] at hadd
      cases hact : provider.is_active with
      | false => simp [hact] at hadd
      | true =>
        by_cases hty : provider.utility_type = utEnum
        · simp only [hact, hty, Bool.not_true, Bool.false_eq_true, if_false,
            ne_eq, not_true_eq_false, OpResult.mk.injEq, true_and] at hadd
          subst hadd
          have h := upgradeSeq_invariant steps
            { st with configs := (aset st.configs config_id
              (freshConfig utEnum provider_id region base_rate currency
                decimals billing_cycle_days grace_period_days minimum_payment
                maximum_payment now)) }
            config_id
            (freshConfig utEnum provider_id region base_rate currency decimals
              billing_cycle_days grace_period_days minimum_payment
              maximum_payment now)
            0
            (alookup_aset_self _ _ _) rfl
            (by simpa using congrArg List.length hclean)
            (fun v _ =>
              alookup_eq_none_of_filter_nil st.versions _ hclean (config_id, v)
                (fun val => by simp))
          simpa using h
        · simp [hact, hty] at hadd

/-- Witness for C8: create configuration `CFG` and upgrade it twice;
the final version is 3 and exactly two history records exist. -/
theorem version_after_upgrades_witness :
    ∃ st₂ c, upgradeSeq (add_utility_config upgradeStart "CFG" 1 "P1" "Lagos"
        10 "USD" 7 30 7 0 1000 50).state "CFG" upgradeSteps = ⟨.ok (), st₂⟩
      ∧ alookup st₂.configs "CFG" = some c
      ∧ c.version = 1 + upgradeSteps.length
      ∧ (st₂.versions.filter (fun kv => kv.1.1 == "CFG")).length
          = upgradeSteps.length :=
  version_after_upgrades upgradeStart "CFG" 1 "P1" "Lagos" 10 "USD" 7 30 7 0
    1000 50
    (add_utility_config upgradeStart "CFG" 1 "P1" "Lagos" 10 "USD" 7 30 7 0
      1000 50).state
    upgradeSteps (by rfl) (by rfl)

end Nepa
